import Mathlib

/-!
Verification development for the runpod-benchmarks orchestrator
(src/orchestrator.py).  The orchestrator schedules a matrix of
(image × workload script × iteration) benchmark runs over a thread pool,
collects per-iteration docker stats, pushes metric points to InfluxDB and
renders an HTML report of per-(image, workload) averages.

The embedding below models the orchestrator's pure logic directly from the
source.  External collaborators (docker SDK, InfluxDB client, the clock) are
modelled by oracles: every external call's outcome (success, raised
exception, duration) is supplied as data, and the embedding reproduces the
control flow of the Python code on those outcomes, recording the docker
lifecycle events the code would issue.
-/

namespace RunpodBench

/-- The nested `cpu_usage` dictionary of a docker stats snapshot.
A `none` field models an absent dictionary key. -/
structure CpuUsage where
  total_usage : Option Int
  percpu_usage : Option (List Int)
deriving Repr, DecidableEq

/-- The `cpu_stats` / `precpu_stats` dictionary of a docker stats snapshot. -/
structure CpuStats where
  cpu_usage : Option CpuUsage
  system_cpu_usage : Option Int
deriving Repr, DecidableEq

/-- The `memory_stats` dictionary of a docker stats snapshot. -/
structure MemoryStats where
  usage : Option Int
  limit : Option Int
deriving Repr, DecidableEq

/-- A docker stats snapshot as consumed by `run_workload`
(`container.stats(stream=False)`).  Each `none` models a missing key, for
which the Python code substitutes an empty dict / default via `.get`. -/
structure Stats where
  cpu_stats : Option CpuStats
  precpu_stats : Option CpuStats
  memory_stats : Option MemoryStats
deriving Repr, DecidableEq

/-- A stats snapshot with every key missing. -/
def emptyStats : Stats := ⟨none, none, none⟩

/-- `stats.get("cpu_stats", {}).get("cpu_usage", {}).get("total_usage", 0)`. -/
def cpuTotal (s : Stats) : Int :=
  ((s.cpu_stats.bind fun c => c.cpu_usage).bind fun u => u.total_usage).getD 0

/-- `stats.get("precpu_stats", {}).get("cpu_usage", {}).get("total_usage", 0)`. -/
def precpuTotal (s : Stats) : Int :=
  ((s.precpu_stats.bind fun c => c.cpu_usage).bind fun u => u.total_usage).getD 0

/-- `cpu_delta = cpu_total - precpu_total`. -/
def cpu_delta (s : Stats) : Int := cpuTotal s - precpuTotal s

/-- `stats.get("cpu_stats", {}).get("system_cpu_usage", 0)`. -/
def sysTotal (s : Stats) : Int :=
  (s.cpu_stats.bind fun c => c.system_cpu_usage).getD 0

/-- `stats.get("precpu_stats", {}).get("system_cpu_usage", 0)`. -/
def precpuSys (s : Stats) : Int :=
  (s.precpu_stats.bind fun c => c.system_cpu_usage).getD 0

/-- `sys_delta = sys_total - precpu_sys`. -/
def sys_delta (s : Stats) : Int := sysTotal s - precpuSys s

/-- `stats.get("cpu_stats", {}).get("cpu_usage", {}).get("percpu_usage") or []`:
a missing key yields `None`, and `or []` turns `None` (and an empty list)
into `[]`. -/
def percpuUsage (s : Stats) : List Int :=
  ((s.cpu_stats.bind fun c => c.cpu_usage).bind fun u => u.percpu_usage).getD []

/-- `cpu_count = len(percpu)`. -/
def cpu_count (s : Stats) : Nat := (percpuUsage s).length

/-- `cpu_percent = (cpu_delta/sys_delta)*cpu_count*100 if sys_delta else 0.0`.
Python's truthiness test `if sys_delta` is `sys_delta ≠ 0`. -/
def cpu_percent (s : Stats) : ℚ :=
  if sys_delta s ≠ 0 then
    ((cpu_delta s : ℚ) / (sys_delta s : ℚ)) * (cpu_count s : ℚ) * 100
  else 0

/-- `mem_usage = stats.get("memory_stats", {}).get("usage", 0)`. -/
def mem_usage (s : Stats) : Int :=
  (s.memory_stats.bind fun m => m.usage).getD 0

/-- `mem_limit = stats.get("memory_stats", {}).get("limit", 0)`. -/
def mem_limit (s : Stats) : Int :=
  (s.memory_stats.bind fun m => m.limit).getD 0

/-- `mem_percent = (mem_usage/mem_limit)*100 if mem_limit else 0.0`. -/
def mem_percent (s : Stats) : ℚ :=
  if mem_limit s ≠ 0 then ((mem_usage s : ℚ) / (mem_limit s : ℚ)) * 100
  else 0

/-- One entry of the `metrics` list built by `run_workload` (the dict
appended at the end of a successful iteration).  `status` is
`exit_info.get("StatusCode")` (`none` when the key is absent);
`timestamp` is `int(time.time()*1e9)` at append time. -/
structure Record where
  image : String
  workload : String
  iteration : Nat
  runtime_s : ℚ
  cpu_percent : ℚ
  mem_percent : ℚ
  mem_usage_bytes : Int
  status : Option Int
  timestamp : Int
deriving Repr, DecidableEq

/-- Outcome of `container.wait(timeout=timeout)` as seen by the caller. -/
inductive WaitRes
  | ok (statusCode : Option Int)
  | timeout
  | err
deriving Repr, DecidableEq

/-- Oracle datum for one iteration of the `for i in range(1, iterations+1)`
loop: which external docker call (if any) raised, the durations the calls
consumed, and on full success the stats snapshot and exit info.
Durations are in seconds on the model clock. -/
inductive IterOutcome
  /-- `docker_client.containers.run` raised; no container handle exists. -/
  | createFail (d : ℚ)
  /-- the container was created, then `container.stats` raised. -/
  | statsFail (dCreate d : ℚ)
  /-- create and stats succeeded, then `container.wait` raised;
  `timedOut` distinguishes the timeout exception from another error. -/
  | waitAbort (dCreate dStats d : ℚ) (timedOut : Bool)
  /-- all three docker calls returned. -/
  | ok (dCreate dStats dWait : ℚ) (stats : Stats) (statusCode : Option Int)
deriving Repr, DecidableEq

/-- A docker lifecycle event issued by the orchestrator, used to reason about
container teardown.  `removeForce` is `container.remove(force=True)` in the
`finally` block. -/
inductive Ev
  | pullAttempt (image : String) (ok : Bool)
  | createAttempt (iter : Nat) (ok : Bool)
  | statsAttempt (iter : Nat) (ok : Bool)
  | waitAttempt (iter : Nat) (res : WaitRes)
  | removeForce (iter : Nat)
deriving Repr, DecidableEq

/-- One iteration of the loop body of `run_workload`, at clock time `t`:
returns the record appended to `metrics` (if any), the docker events issued,
and the clock after the iteration.  The `finally` block removes the container
on every path on which one was created; the generic `except` swallows any
exception without appending a record.  `t0` is read after
`containers.run` returns, `t1` after `container.wait` returns, so the
`container.stats` call sits inside the measured window. -/
def runIter (image scriptName : String) (i : Nat) (o : IterOutcome) (t : ℚ) :
    Option Record × List Ev × ℚ :=
  match o with
  | .createFail d => (none, [.createAttempt i false], t + d)
  | .statsFail dc d =>
      (none, [.createAttempt i true, .statsAttempt i false, .removeForce i],
       t + dc + d)
  | .waitAbort dc ds d timedOut =>
      (none,
       [.createAttempt i true, .statsAttempt i true,
        .waitAttempt i (if timedOut then .timeout else .err), .removeForce i],
       t + dc + ds + d)
  | .ok dc ds dw stats code =>
      let t0 := t + dc
      let t1 := t0 + ds + dw
      (some { image := image, workload := scriptName, iteration := i,
              runtime_s := t1 - t0,
              cpu_percent := cpu_percent stats,
              mem_percent := mem_percent stats,
              mem_usage_bytes := mem_usage stats,
              status := code,
              timestamp := ⌊t1 * 1000000000⌋ },
       [.createAttempt i true, .statsAttempt i true, .waitAttempt i (.ok code),
        .removeForce i],
       t1)

/-- The `for i in range(1, iterations + 1)` loop of `run_workload`, run over
an explicit list of iteration indices, appending each successful iteration's
record. -/
def runLoop (image scriptName : String) (outc : Nat → IterOutcome) :
    List Nat → ℚ → List Record × List Ev × ℚ
  | [], t => ([], [], t)
  | i :: is, t =>
      let r := runIter image scriptName i (outc i) t
      let rest := runLoop image scriptName outc is r.2.2
      (r.1.toList ++ rest.1, r.2.1 ++ rest.2.1, rest.2.2)

/-- Outcome of `docker_client.images.pull(image)`, with the time the call
consumed. -/
inductive PullOutcome
  | ok (d : ℚ)
  | fail (d : ℚ)
deriving Repr, DecidableEq

/-- Oracle for one (image, script) cell: the pull outcome and each
iteration's outcome. -/
structure CellEnv where
  pull : PullOutcome
  iter : Nat → IterOutcome

/-- `os.path.basename`: the part of the path after the last slash. -/
def basename (p : String) : String := (p.splitOn "/").getLastD ""

/-- `run_workload(image, script_path, iterations, timeout)` at clock time
`t`: on pull failure it returns the empty list at once; otherwise it runs
the iteration loop and returns the collected `metrics` list.  The returned
triple is (metrics, docker events, clock on return). -/
def run_workload (image scriptPath : String) (iterations : Nat)
    (env : CellEnv) (t : ℚ) : List Record × List Ev × ℚ :=
  match env.pull with
  | .fail d => ([], [.pullAttempt image false], t + d)
  | .ok d =>
      let r := runLoop image (basename scriptPath) env.iter
        (List.range' 1 iterations) (t + d)
      (r.1, .pullAttempt image true :: r.2.1, r.2.2)

/-- The task matrix enumerated by the `__main__` block:
`for img in IMAGES for scr in scripts` (image-major order). -/
def cells (images scripts : List String) : List (String × String) :=
  images.flatMap fun img => scripts.map fun scr => (img, scr)

/-- The futures submitted by the scheduler loop, paired with their results:
one `run_workload` call per (image, script) cell.  `run_workload` is total
(every exception inside it is caught), so `fut.result()` never raises and
the `except` branch of the collection loop is dead; each future's whole
result list is collected by `all_metrics.extend`. -/
def mainResults (images scripts : List String) (iterations : Nat)
    (env : String × String → CellEnv) (start : String × String → ℚ) :
    List ((String × String) × (List Record × List Ev × ℚ)) :=
  (cells images scripts).map fun c =>
    (c, run_workload c.1 c.2 iterations (env c) (start c))

/-- The `all_metrics` list after the `as_completed` loop, taken in
submission order (completion order permutes it; none of the properties
below depend on the order). -/
def mainAll (images scripts : List String) (iterations : Nat)
    (env : String × String → CellEnv) (start : String × String → ℚ) :
    List Record :=
  (mainResults images scripts iterations env start).flatMap fun p => p.2.1

/-- A metric point as assembled by `push_to_influx` for one record. -/
structure InfluxPoint where
  image : String
  workload : String
  runtime_s : ℚ
  cpu_percent : ℚ
  mem_percent : ℚ
  mem_usage_bytes : Int
  time : Int
deriving Repr, DecidableEq

/-- The `Point` built from one metrics dict in `push_to_influx`. -/
def toPoint (r : Record) : InfluxPoint :=
  ⟨r.image, r.workload, r.runtime_s, r.cpu_percent, r.mem_percent,
   r.mem_usage_bytes, r.timestamp⟩

/-- `push_to_influx(points)`: writes each point in order with no
per-point exception handling; `writeOk` is the oracle for whether
`write_api.write` succeeds on a point.  Returns the points actually
written and whether an exception escaped the function (aborting the
loop at the failing point). -/
def push_to_influx (writeOk : InfluxPoint → Bool) :
    List Record → List InfluxPoint × Bool
  | [] => ([], false)
  | r :: rs =>
      let pt := toPoint r
      if writeOk pt then
        let rest := push_to_influx writeOk rs
        (pt :: rest.1, rest.2)
      else ([], true)

/-- The per-key accumulator of `generate_html_report`:
`{"runtime": [...], "cpu": [...], "mem": [...]}`. -/
structure GroupData where
  runtime : List ℚ
  cpu : List ℚ
  mem : List ℚ
deriving Repr, DecidableEq

/-- The grouping key of a record: `key = (m["image"], m["workload"])`. -/
def keyOf (m : Record) : String × String := (m.image, m.workload)

/-- `summary.setdefault(key, ...)` followed by the three appends, on an
insertion-ordered association list (Python dicts preserve insertion
order). -/
def addMetric : List ((String × String) × GroupData) → Record →
    List ((String × String) × GroupData)
  | [], m =>
      [(keyOf m, ⟨[m.runtime_s], [m.cpu_percent], [m.mem_percent]⟩)]
  | (k, g) :: rest, m =>
      if k = keyOf m then
        (k, ⟨g.runtime ++ [m.runtime_s], g.cpu ++ [m.cpu_percent],
             g.mem ++ [m.mem_percent]⟩) :: rest
      else (k, g) :: addMetric rest m

/-- The grouping loop of `generate_html_report`. -/
def buildSummary (metrics : List Record) : List ((String × String) × GroupData) :=
  metrics.foldl addMetric []

/-- `statistics.mean`: raises `StatisticsError` (modelled as `none`) on an
empty list, otherwise the arithmetic mean. -/
def mean (xs : List ℚ) : Option ℚ :=
  if xs.isEmpty then none else some (xs.sum / (xs.length : ℚ))

/-- One row of the report table. -/
structure Row where
  image : String
  workload : String
  avg_rt : ℚ
  avg_cpu : ℚ
  avg_mem : ℚ
deriving Repr, DecidableEq

/-- The row computed for one summary entry; `none` models a
`StatisticsError` escaping `generate_html_report`. -/
def rowOf (p : (String × String) × GroupData) : Option Row :=
  match mean p.2.runtime, mean p.2.cpu, mean p.2.mem with
  | some rt, some c, some m => some ⟨p.1.1, p.1.2, rt, c, m⟩
  | _, _, _ => none

/-- The row-building loop over the summary entries; a `none` from any
`rowOf` (a raised `StatisticsError`) aborts the whole report. -/
def rowsOf : List ((String × String) × GroupData) → Option (List Row)
  | [] => some []
  | p :: ps =>
      match rowOf p, rowsOf ps with
      | some r, some rs => some (r :: rs)
      | _, _ => none

/-- The (unsorted) rows of `generate_html_report`; `none` models a raised
`StatisticsError`.  The code then sorts these by (image, workload) for
rendering, which permutes but does not change the set of rows. -/
def reportRows (metrics : List Record) : Option (List Row) :=
  rowsOf (buildSummary metrics)

/-- `MAX_WORKERS = int(os.getenv("MAX_WORKERS", "0")) or None`: Python's
`x or None` yields `None` exactly when the integer `x` is falsy, i.e. zero;
every other value (negatives included) passes through unchanged. -/
def maxWorkersSetting (raw : Int) : Option Int :=
  if raw = 0 then none else some raw

/-- CPython's `ThreadPoolExecutor(max_workers=...)` (the external worker
pool the scheduler delegates to): `None` selects the documented system
default bound `min(32, os.cpu_count() + 4)`, while a value `<= 0` raises
`ValueError("max_workers must be greater than 0")` at pool creation. -/
def poolCreate (ncpu : Nat) : Option Int → Except String Nat
  | none => .ok (min 32 (ncpu + 4))
  | some n =>
      if n ≤ 0 then .error "max_workers must be greater than 0"
      else .ok n.toNat

/-- Observable outcome of the whole `__main__` block. -/
structure MainOutcome where
  records : List Record
  pushed : List InfluxPoint
  pushRaised : Bool
  reportWritten : Bool
deriving Repr, DecidableEq

/-- The `__main__` block after script discovery: collect all results, then
(`if INFLUX_BUCKET:`) push them to InfluxDB with no surrounding exception
handler, then write `metrics.json` and the HTML report.  An exception
escaping `push_to_influx` therefore aborts the process before the dump and
report steps. -/
def mainRun (images scripts : List String) (iterations : Nat)
    (env : String × String → CellEnv) (start : String × String → ℚ)
    (bucket : String) (writeOk : InfluxPoint → Bool) : MainOutcome :=
  let all := mainAll images scripts iterations env start
  let push := if bucket ≠ "" then push_to_influx writeOk all else ([], false)
  { records := all, pushed := push.1, pushRaised := push.2,
    reportWritten := !push.2 }

/-- Whether an iteration outcome reaches the `metrics.append` call
(all three docker calls returned). -/
def isOkOutcome : IterOutcome → Bool
  | .ok _ _ _ _ _ => true
  | _ => false

/-- A stats snapshot whose counters are all present and read zero load. -/
def zeroLoadStats : Stats :=
  ⟨some ⟨some ⟨some 0, some []⟩, some 0⟩,
   some ⟨some ⟨some 0, some []⟩, some 0⟩,
   some ⟨some 0, some 0⟩⟩

/-- The runtime recorded for an `.ok` iteration outcome: the duration of
the `container.stats` call plus that of the `container.wait` call. -/
def okRuntime : IterOutcome → Option ℚ
  | .ok _ ds dw _ _ => some (ds + dw)
  | _ => none

/-- Number of records a cell contributes: zero on pull failure, else the
number of iterations whose docker calls all succeeded. -/
def cellSuccessCount (iterations : Nat) (env : CellEnv) : Nat :=
  match env.pull with
  | .fail _ => 0
  | .ok _ =>
      ((List.range' 1 iterations).filter fun i => isOkOutcome (env.iter i)).length

/-! ### C10 -/

/-- C10: the percentage computations of `run_workload` are total: a zero (or
missing, hence defaulted-to-zero) system-CPU delta yields `cpu_percent = 0`,
a zero (or missing) memory limit yields `mem_percent = 0`, no division by
zero is ever performed, and a snapshot with all counters missing is
indistinguishable from one reporting explicit zero load. -/
theorem c10_percent_total (s : Stats) :
    (sys_delta s = 0 → cpu_percent s = 0) ∧
    (mem_limit s = 0 → mem_percent s = 0) ∧
    cpu_percent emptyStats = cpu_percent zeroLoadStats ∧
    mem_percent emptyStats = mem_percent zeroLoadStats := by
  refine ⟨fun h => ?_, fun h => ?_, by decide, by decide⟩
  · simp [cpu_percent, h]
  · simp [mem_percent, h]

/-- Witness for C10 at a concrete snapshot with a missing
`system_cpu_usage` counter and a missing memory limit. -/
theorem c10_percent_total_witness :
    sys_delta emptyStats = 0 ∧ cpu_percent emptyStats = 0 ∧
    mem_limit emptyStats = 0 ∧ mem_percent emptyStats = 0 :=
  ⟨by decide, (c10_percent_total emptyStats).1 (by decide),
   by decide, (c10_percent_total emptyStats).2.1 (by decide)⟩

/-! ### C6 -/

/-- In one iteration's event list, a successful container creation is always
followed by a forced remove, and that remove closes the iteration. -/
lemma runIter_create_remove (image scriptName : String) (j : Nat)
    (o : IterOutcome) (t : ℚ) (i : Nat)
    (h : Ev.createAttempt i true ∈ (runIter image scriptName j o t).2.1) :
    Ev.removeForce i ∈ (runIter image scriptName j o t).2.1 ∧
    (runIter image scriptName j o t).2.1.getLast? = some (Ev.removeForce i) := by
  cases o <;> simp [runIter] at h ⊢ <;> exact ⟨h, h.symm⟩

/-- Lifting `runIter_create_remove` through the iteration loop. -/
lemma runLoop_create_remove (image scriptName : String)
    (outc : Nat → IterOutcome) (is : List Nat) (t : ℚ) (i : Nat)
    (h : Ev.createAttempt i true ∈ (runLoop image scriptName outc is t).2.1) :
    Ev.removeForce i ∈ (runLoop image scriptName outc is t).2.1 := by
  induction is generalizing t with
  | nil => simp [runLoop] at h
  | cons j js ih =>
      simp only [runLoop, List.mem_append] at h ⊢
      rcases h with h | h
      · exact Or.inl (runIter_create_remove image scriptName j (outc j) t i h).1
      · exact Or.inr (ih _ h)

/-- C6: on every execution path of a benchmark iteration (success, non-zero
exit, timeout, exception), a container instance that was created is removed
(`container.remove(force=True)` in the `finally` block): in the full event
trace of `run_workload`, every successful `containers.run` for iteration `i`
is matched by a forced remove for `i`, and within a single iteration the
forced remove is the last docker event, so no container leaks into the next
iteration or past the return. -/
theorem c6_container_teardown (image scriptPath scriptName : String)
    (iterations : Nat) (env : CellEnv) (o : IterOutcome) (t : ℚ) (i : Nat) :
    (Ev.createAttempt i true ∈ (run_workload image scriptPath iterations env t).2.1 →
      Ev.removeForce i ∈ (run_workload image scriptPath iterations env t).2.1) ∧
    (Ev.createAttempt i true ∈ (runIter image scriptName i o t).2.1 →
      (runIter image scriptName i o t).2.1.getLast? = some (Ev.removeForce i)) := by
  constructor
  · intro h
    cases hp : env.pull with
    | fail d => simp [run_workload, hp] at h
    | ok d =>
        simp only [run_workload, hp, List.mem_cons] at h ⊢
        rcases h with h | h
        · cases h
        · exact Or.inr (runLoop_create_remove image (basename scriptPath)
            env.iter (List.range' 1 iterations) (t + d) i h)
  · intro h
    exact (runIter_create_remove image scriptName i o t i h).2

/-- Witness for C6: a one-iteration run that times out; the container is
created and force-removed, and the remove closes the iteration. -/
theorem c6_container_teardown_witness :
    Ev.removeForce 1 ∈
      (run_workload "img-a" "wl.py" 1
        ⟨.ok 0, fun _ => .waitAbort 0 0 5 true⟩ 0).2.1 ∧
    (runIter "img-a" "wl.py" 1 (.waitAbort 0 0 5 true) 0).2.1.getLast? =
      some (Ev.removeForce 1) := by
  constructor
  · exact (c6_container_teardown "img-a" "wl.py" "wl.py" 1
      ⟨.ok 0, fun _ => .waitAbort 0 0 5 true⟩ (.waitAbort 0 0 5 true) 0 1).1
      (by decide)
  · exact (c6_container_teardown "img-a" "wl.py" "wl.py" 1
      ⟨.ok 0, fun _ => .waitAbort 0 0 5 true⟩ (.waitAbort 0 0 5 true) 0 1).2
      (by decide)

/-! ### C7 -/

/-- C7: the scheduler loop runs the whole matrix to completion and one
task's failure never aborts siblings: the collected futures correspond
one-to-one, in submission order, to the enumerated cells (every cell is
executed and collected, whatever the outcomes in the oracle), and each
collected result is exactly its own cell's `run_workload` output, depending
only on that cell's environment — a failure inside one cell cannot change,
drop, or cancel another cell's entry. -/
theorem c7_failure_isolation (images scripts : List String) (iterations : Nat)
    (env : String × String → CellEnv) (start : String × String → ℚ) :
    ((mainResults images scripts iterations env start).map Prod.fst =
      cells images scripts) ∧
    (∀ p ∈ mainResults images scripts iterations env start,
      p.2 = run_workload p.1.1 p.1.2 iterations (env p.1) (start p.1)) := by
  constructor
  · rw [mainResults, List.map_map]
    have hid : (Prod.fst ∘ fun c : String × String =>
        (c, run_workload c.1 c.2 iterations (env c) (start c))) = id := rfl
    rw [hid, List.map_id]
  · intro p hp
    simp only [mainResults, List.mem_map] at hp
    obtain ⟨c, _, rfl⟩ := hp
    rfl

/-- Witness for C7: a 1×1 matrix whose only task fails at container
creation; the scheduler still collects that cell's (empty) result. -/
theorem c7_failure_isolation_witness :
    (("img-a", "wl.py"),
        run_workload "img-a" "wl.py" 3
          (⟨.ok 0, fun _ => .createFail 1⟩ : CellEnv) 0) ∈
      mainResults ["img-a"] ["wl.py"] 3 (fun _ => ⟨.ok 0, fun _ => .createFail 1⟩)
        (fun _ => 0) ∧
    (("img-a", "wl.py"),
        run_workload "img-a" "wl.py" 3
          (⟨.ok 0, fun _ => .createFail 1⟩ : CellEnv) 0).2 =
      run_workload "img-a" "wl.py" 3 (⟨.ok 0, fun _ => .createFail 1⟩ : CellEnv) 0 := by
  refine ⟨by simp [mainResults, cells], ?_⟩
  exact (c7_failure_isolation ["img-a"] ["wl.py"] 3
      (fun _ => ⟨.ok 0, fun _ => .createFail 1⟩) (fun _ => 0)).2 _
      (by simp [mainResults, cells])

/-! ### C1 -/

/-- The iteration indices recorded by the loop are exactly the indices whose
three docker calls all succeeded, in loop order. -/
lemma runLoop_map_iteration (image scriptName : String)
    (outc : Nat → IterOutcome) (is : List Nat) (t : ℚ) :
    ((runLoop image scriptName outc is t).1.map fun r => r.iteration) =
      is.filter fun i => isOkOutcome (outc i) := by
  induction is generalizing t with
  | nil => rfl
  | cons i is ih =>
      cases h : outc i <;>
        simp [runLoop, runIter, h, isOkOutcome, ih, List.filter_cons]

/-- The loop emits one record per fully successful iteration. -/
lemma runLoop_length (image scriptName : String) (outc : Nat → IterOutcome)
    (is : List Nat) (t : ℚ) :
    (runLoop image scriptName outc is t).1.length =
      (is.filter fun i => isOkOutcome (outc i)).length := by
  have h := congrArg List.length (runLoop_map_iteration image scriptName outc is t)
  simpa using h

/-- `run_workload` returns one record per fully successful iteration, and
none at all when the pull fails. -/
lemma run_workload_length (image scriptPath : String) (iterations : Nat)
    (env : CellEnv) (t : ℚ) :
    (run_workload image scriptPath iterations env t).1.length =
      cellSuccessCount iterations env := by
  cases hp : env.pull with
  | fail d => simp [run_workload, hp, cellSuccessCount]
  | ok d => simp [run_workload, hp, cellSuccessCount, runLoop_length]

/-- Length of a `flatMap` as a sum of lengths. -/
lemma length_flatMap_eq_sum (l : List α) (f : α → List β) :
    (l.flatMap f).length = (l.map fun a => (f a).length).sum := by
  induction l with
  | nil => rfl
  | cons a l ih => simp [List.flatMap_cons, ih]

/-- The matrix has `images × scripts` cells. -/
lemma cells_length (images scripts : List String) :
    (cells images scripts).length = images.length * scripts.length := by
  induction images with
  | nil => simp [cells]
  | cons img images ih =>
      have hc : cells (img :: images) scripts =
          (scripts.map fun scr => (img, scr)) ++ cells images scripts := by
        simp [cells]
      rw [hc]
      simp [ih, Nat.succ_mul, Nat.add_comm]

/-- A sum of mapped values, each bounded by `k`, is bounded by `length * k`. -/
lemma sum_map_le_length_mul (l : List α) (f : α → Nat) (k : Nat)
    (h : ∀ a, f a ≤ k) : (l.map f).sum ≤ l.length * k := by
  induction l with
  | nil => simp
  | cons a l ih =>
      simp only [List.map_cons, List.sum_cons, List.length_cons, Nat.succ_mul]
      calc f a + (l.map f).sum ≤ k + l.length * k := Nat.add_le_add (h a) ih
        _ = l.length * k + k := Nat.add_comm _ _

/-- A cell never contributes more records than it has iterations. -/
lemma cellSuccessCount_le (iterations : Nat) (env : CellEnv) :
    cellSuccessCount iterations env ≤ iterations := by
  cases hp : env.pull with
  | fail d => simp [cellSuccessCount, hp]
  | ok d =>
      have h := List.length_filter_le
        (fun i => isOkOutcome (env.iter i)) (List.range' 1 iterations)
      simpa [cellSuccessCount, hp] using h

/-- The total record count is the sum of the per-cell success counts. -/
lemma mainAll_length (images scripts : List String) (iterations : Nat)
    (env : String × String → CellEnv) (start : String × String → ℚ) :
    (mainAll images scripts iterations env start).length =
      ((cells images scripts).map fun c =>
        cellSuccessCount iterations (env c)).sum := by
  rw [mainAll, mainResults]
  generalize cells images scripts = l
  induction l with
  | nil => rfl
  | cons c l ih =>
      simp only [List.map_cons, List.flatMap_cons, List.length_append,
        List.sum_cons, ih]
      rw [run_workload_length]

/-- C1 counterexample: a 1×1×1 matrix whose single run fails at container
creation yields zero collected records, not `1 × 1 × 1 = 1` — the failed
run is missing from the results instead of appearing as a failure record. -/
theorem c1_cex :
    (mainAll ["img-a"] ["wl.py"] 1
        (fun _ => ⟨.ok 0, fun _ => .createFail 1⟩) (fun _ => 0)).length = 0 ∧
    ["img-a"].length * ["wl.py"].length * 1 = 1 := by
  constructor
  · rfl
  · rfl

/-- C1 (amended): the scheduler collects exactly one record per fully
successful iteration: the total record count is the sum over the matrix
cells of each cell's successful-iteration count — hence at most
`images × workloads × iterations`, with equality only when nothing fails —
and within a cell the records carry pairwise distinct iteration indices
(no duplicates).  Failed runs are omitted from the results, not recorded. -/
theorem c1_matrix_records (images scripts : List String) (iterations : Nat)
    (env : String × String → CellEnv) (start : String × String → ℚ) :
    (mainAll images scripts iterations env start).length =
      ((cells images scripts).map fun c => cellSuccessCount iterations (env c)).sum ∧
    (mainAll images scripts iterations env start).length ≤
      images.length * scripts.length * iterations ∧
    ∀ (c : String × String) (t : ℚ),
      (((run_workload c.1 c.2 iterations (env c) t).1.map
        fun r => r.iteration)).Nodup := by
  refine ⟨mainAll_length images scripts iterations env start, ?_, ?_⟩
  · rw [mainAll_length]
    calc ((cells images scripts).map fun c => cellSuccessCount iterations (env c)).sum
        ≤ (cells images scripts).length * iterations :=
          sum_map_le_length_mul _ _ _ fun c => cellSuccessCount_le iterations (env c)
      _ = images.length * scripts.length * iterations := by rw [cells_length]
  · intro c t
    cases hp : (env c).pull with
    | fail d => simp [run_workload, hp]
    | ok d =>
        have h := runLoop_map_iteration c.1 (basename c.2) (env c).iter
          (List.range' 1 iterations) (t + d)
        simp only [run_workload, hp]
        rw [h]
        exact (List.nodup_range' 1 iterations).filter _

/-! ### C3 -/

/-- C3 counterexample: an image whose pull fails, with two requested
iterations, yields an empty metrics list — not two `success=false` records
with populated error fields as the claim states; the failed task is simply
absent from the results. -/
theorem c3_cex :
    (run_workload "img-a" "wl.py" 2
        ⟨.fail 1, fun _ => .createFail 0⟩ 0).1 = [] ∧
    (run_workload "img-a" "wl.py" 2
        ⟨.fail 1, fun _ => .createFail 0⟩ 0).1.length ≠ 2 := by
  constructor
  · rfl
  · decide

/-- C3 (amended): for every image whose pull fails, `run_workload` returns
immediately with the empty record list: no container is created, no stats
or wait call is attempted (the only docker event is the failed pull), and
no iteration runtime is consumed (the clock advances only by the pull
attempt's own duration).  The failure is confined to that cell but produces
no failure-marked records at all. -/
theorem c3_pull_failure (image scriptPath : String) (iterations : Nat)
    (env : CellEnv) (t d : ℚ) (hp : env.pull = .fail d) :
    (run_workload image scriptPath iterations env t).1 = [] ∧
    (run_workload image scriptPath iterations env t).2.1 =
      [Ev.pullAttempt image false] ∧
    (run_workload image scriptPath iterations env t).2.2 = t + d := by
  refine ⟨?_, ?_, ?_⟩ <;> simp [run_workload, hp]

/-- Witness for C3 at a concrete failing pull. -/
theorem c3_pull_failure_witness :
    (⟨.fail 1, fun _ => .createFail 0⟩ : CellEnv).pull = .fail 1 ∧
    (run_workload "img-a" "wl.py" 3
        ⟨.fail 1, fun _ => .createFail 0⟩ 0).1 = [] ∧
    (run_workload "img-a" "wl.py" 3
        ⟨.fail 1, fun _ => .createFail 0⟩ 0).2.1 =
      [Ev.pullAttempt "img-a" false] := by
  refine ⟨rfl, ?_, ?_⟩
  · exact (c3_pull_failure "img-a" "wl.py" 3
      ⟨.fail 1, fun _ => .createFail 0⟩ 0 1 rfl).1
  · exact (c3_pull_failure "img-a" "wl.py" 3
      ⟨.fail 1, fun _ => .createFail 0⟩ 0 1 rfl).2.1

/-! ### C4 -/

/-- C4 counterexample: a timed-out iteration produces no record at all
(the generic `except` swallows the timeout without appending to `metrics`),
so the output carries no timeout-distinct failure marker; the record part is
identical to that of any other in-iteration exception.  The container is
force-removed. -/
theorem c4_cex :
    (runIter "img-a" "wl.py" 1 (.waitAbort 0 0 5 true) 0).1 = none ∧
    (runIter "img-a" "wl.py" 1 (.waitAbort 0 0 5 true) 0).1 =
      (runIter "img-a" "wl.py" 1 (.statsFail 0 5) 0).1 ∧
    Ev.removeForce 1 ∈ (runIter "img-a" "wl.py" 1 (.waitAbort 0 0 5 true) 0).2.1 := by
  refine ⟨rfl, rfl, by decide⟩

/-- C4 (amended): when `container.wait` exceeds its timeout the container
is forcibly torn down — `remove(force=True)` is issued and closes the
iteration's event trace — but the run's outcome is an *absent* record, not
a record with a timeout-distinct marker: the record part is `none` exactly
as for a non-timeout wait failure, so consumers cannot distinguish a
timed-out run from one lost to another exception (only a run that completed
`wait`, even with non-zero exit status, yields a record). -/
theorem c4_timeout_teardown (image scriptName : String) (i : Nat)
    (dc ds d t : ℚ) (b : Bool) (stats : Stats) (code : Option Int)
    (dw : ℚ) :
    (runIter image scriptName i (.waitAbort dc ds d b) t).1 = none ∧
    (runIter image scriptName i (.waitAbort dc ds d b) t).2.1.getLast? =
      some (Ev.removeForce i) ∧
    (runIter image scriptName i (.waitAbort dc ds d true) t).1 =
      (runIter image scriptName i (.waitAbort dc ds d false) t).1 ∧
    (runIter image scriptName i (.ok dc ds dw stats code) t).1 ≠ none := by
  refine ⟨rfl, rfl, rfl, ?_⟩
  simp [runIter]

/-! ### C9 -/

/-- The recorded runtimes are, per successful iteration, the duration of
the `container.stats` call plus the duration of the `container.wait` call —
independent of the clock value at which the loop starts. -/
lemma runLoop_map_runtime (image scriptName : String)
    (outc : Nat → IterOutcome) (is : List Nat) (t : ℚ) :
    ((runLoop image scriptName outc is t).1.map fun r => r.runtime_s) =
      is.filterMap fun i => okRuntime (outc i) := by
  induction is generalizing t with
  | nil => rfl
  | cons i is ih =>
      cases h : outc i with
      | ok dc ds dw stats code =>
          simp only [runLoop, runIter, h, List.filterMap_cons, okRuntime,
            Option.toList_some, List.map_append, List.map_cons, List.map_nil,
            ih]
          simp only [List.singleton_append, List.cons.injEq, and_true]
          ring
      | createFail d =>
          simp [runLoop, runIter, h, List.filterMap_cons, okRuntime, ih]
      | statsFail dc d =>
          simp [runLoop, runIter, h, List.filterMap_cons, okRuntime, ih]
      | waitAbort dc ds d b =>
          simp [runLoop, runIter, h, List.filterMap_cons, okRuntime, ih]

/-- C9 counterexample: an iteration whose `container.stats` call takes 1s
while the wait for the container takes 2s records `runtime_s = 3`, not the
2s wait window: the metric-sampling call sits inside the measured window
(`t0` is read before `container.stats`, `t1` after `container.wait`). -/
theorem c9_cex :
    ((runIter "img-a" "wl.py" 1 (.ok 0 1 2 emptyStats (some 0)) 0).1.map
      fun r => r.runtime_s) = some 3 ∧ (3 : ℚ) ≠ 2 := by
  constructor
  · simp [runIter]
    norm_num
  · norm_num

/-- C9 (amended): a successful iteration records
`runtime_s = dStats + dWait`: the window excludes the image pull (the pull
happens before `t0`, and the recorded runtimes are a function of the
iteration outcomes alone — the pull duration and the cell's start time never
enter them) and excludes container-creation time, but it *includes* the
duration of the `container.stats` sampling call, which runs between `t0`
and the wait. -/
theorem c9_runtime_window (image scriptPath scriptName : String) (i : Nat)
    (iterations : Nat) (dc ds dw dp t : ℚ) (stats : Stats) (code : Option Int)
    (outc : Nat → IterOutcome) :
    ((runIter image scriptName i (.ok dc ds dw stats code) t).1.map
      fun r => r.runtime_s) = some (ds + dw) ∧
    ((run_workload image scriptPath iterations ⟨.ok dp, outc⟩ t).1.map
      fun r => r.runtime_s) =
      (List.range' 1 iterations).filterMap fun j => okRuntime (outc j) := by
  constructor
  · simp [runIter]
    ring
  · simp [run_workload, runLoop_map_runtime]

/-! ### C5 -/

/-- C5 counterexample: with two collected records and a sink whose first
write raises, `push_to_influx` forwards nothing (the second point is never
attempted) and the exception escapes the function; since `__main__` calls it
unguarded, the raised flag aborts the run before `metrics.json` and the
HTML report are written. -/
theorem c5_cex :
    push_to_influx (fun _ => false)
      [{ image := "img-a", workload := "wl.py", iteration := 1,
         runtime_s := 1, cpu_percent := 0, mem_percent := 0,
         mem_usage_bytes := 0, status := some 0, timestamp := 0 },
       { image := "img-a", workload := "wl.py", iteration := 2,
         runtime_s := 1, cpu_percent := 0, mem_percent := 0,
         mem_usage_bytes := 0, status := some 0, timestamp := 0 }] =
      ([], true) ∧
    (mainRun ["img-a"] ["wl.py"] 1
        (fun _ => ⟨.ok 0, fun _ => .ok 0 0 1 emptyStats (some 0)⟩)
        (fun _ => 0) "runpod_bench" (fun _ => false)).reportWritten = false := by
  constructor
  · rfl
  · rfl

/-- C5 (amended): forwarding to the time-series sink is fail-fast, not
best-effort per point: exactly the longest prefix of points accepted by the
sink is written, the first failing write aborts the loop (later points are
never attempted) and the exception escapes `push_to_influx`; in `__main__`
the call is unguarded, so a raised write aborts the run before the raw dump
and HTML report are produced.  The collected records themselves are not
altered by sink behavior. -/
theorem c5_push_fail_fast (writeOk writeOk' : InfluxPoint → Bool)
    (rs : List Record) (images scripts : List String) (iterations : Nat)
    (env : String × String → CellEnv) (start : String × String → ℚ)
    (bucket : String) :
    push_to_influx writeOk rs =
      ((rs.takeWhile fun r => writeOk (toPoint r)).map toPoint,
       (rs.takeWhile fun r => writeOk (toPoint r)).length != rs.length) ∧
    (mainRun images scripts iterations env start bucket writeOk).records =
      (mainRun images scripts iterations env start bucket writeOk').records ∧
    (mainRun images scripts iterations env start bucket writeOk).reportWritten =
      !(mainRun images scripts iterations env start bucket writeOk).pushRaised := by
  refine ⟨?_, rfl, rfl⟩
  induction rs with
  | nil => rfl
  | cons r rs ih =>
      by_cases h : writeOk (toPoint r)
      · simp [push_to_influx, h, ih, List.takeWhile_cons]
      · simp [push_to_influx, h, List.takeWhile_cons]

/-! ### C8 -/

/-- C8 counterexample: a negative bound is *not* treated as unbounded:
`int("-1") or None` keeps `-1`, and `ThreadPoolExecutor(max_workers=-1)`
raises `ValueError` instead of delegating to the system default; only the
value `0` maps to `None`. -/
theorem c8_cex :
    maxWorkersSetting (-1) = some (-1) ∧
    poolCreate 8 (maxWorkersSetting (-1)) =
      .error "max_workers must be greater than 0" ∧
    maxWorkersSetting 0 = none := by
  refine ⟨rfl, rfl, rfl⟩

/-- C8 (amended): only the value `0` is treated as "unbounded": it becomes
`None` and the pool uses the documented system default `min(32, ncpu + 4)`;
every non-zero value — negatives included — is passed through unchanged,
and a negative (or zero-after-passthrough, which cannot occur) bound makes
pool creation fail with `ValueError` rather than run with a degenerate or
default bound. -/
theorem c8_zero_only_unbounded (raw : Int) (ncpu : Nat) :
    maxWorkersSetting 0 = none ∧
    poolCreate ncpu (maxWorkersSetting 0) = .ok (min 32 (ncpu + 4)) ∧
    (raw ≠ 0 → maxWorkersSetting raw = some raw) ∧
    (raw < 0 → poolCreate ncpu (maxWorkersSetting raw) =
      .error "max_workers must be greater than 0") := by
  refine ⟨rfl, rfl, fun h => by simp [maxWorkersSetting, h], fun h => ?_⟩
  have hne : raw ≠ 0 := by omega
  have hle : raw ≤ 0 := by omega
  simp [maxWorkersSetting, hne, poolCreate, hle]

/-- Witness for C8 at `raw = -2`, `ncpu = 4`. -/
theorem c8_zero_only_unbounded_witness :
    maxWorkersSetting (-2) = some (-2) ∧
    poolCreate 4 (maxWorkersSetting (-2)) =
      .error "max_workers must be greater than 0" := by
  exact ⟨(c8_zero_only_unbounded (-2) 4).2.2.1 (by decide),
         (c8_zero_only_unbounded (-2) 4).2.2.2 (by decide)⟩

/-! ### C2 -/

/-- The group content after one `addMetric` step, observed through `find?`:
a record extends its own key's group (creating it at the end when absent)
and leaves every other key's group untouched. -/
lemma find?_addMetric (summary : List ((String × String) × GroupData))
    (m : Record) (k : String × String) :
    ((addMetric summary m).find? fun p => p.1 == k) =
      if keyOf m = k then
        match summary.find? (fun p => p.1 == k) with
        | none => some (keyOf m, ⟨[m.runtime_s], [m.cpu_percent], [m.mem_percent]⟩)
        | some (k', g) =>
            some (k', ⟨g.runtime ++ [m.runtime_s], g.cpu ++ [m.cpu_percent],
                       g.mem ++ [m.mem_percent]⟩)
      else summary.find? fun p => p.1 == k := by
  induction summary with
  | nil =>
      by_cases hk : keyOf m = k
      · subst hk
        simp [addMetric]
      · rw [if_neg hk]
        have hb : (keyOf m == k) = false := by simpa using hk
        simp [addMetric, List.find?_cons, hb]
  | cons hd rest ih =>
      obtain ⟨k0, g0⟩ := hd
      simp only [addMetric]
      by_cases h0 : k0 = keyOf m
      · rw [if_pos h0]
        by_cases hk : keyOf m = k
        · subst hk
          rw [if_pos rfl]
          subst h0
          simp [List.find?_cons]
        · rw [if_neg hk]
          have hb : (k0 == k) = false := by
            simp only [beq_eq_false_iff_ne, ne_eq]
            exact fun h => hk (h0 ▸ h)
          simp [List.find?_cons, hb]
      · rw [if_neg h0]
        by_cases hk0 : k0 = k
        · subst hk0
          have hmk : ¬ keyOf m = k0 := fun h => h0 h.symm
          rw [if_neg hmk]
          simp [List.find?_cons]
        · have hb : (k0 == k) = false := by simpa using hk0
          by_cases hk : keyOf m = k
          · rw [if_pos hk]
            rw [if_pos hk] at ih
            simp only [List.find?_cons, hb]
            exact ih
          · rw [if_neg hk]
            rw [if_neg hk] at ih
            simp only [List.find?_cons, hb]
            exact ih

/-- The content of each group in the final summary: exactly the fields of
*all* records sharing the key, in encounter order — with no filtering on
exit status. -/
lemma buildSummary_find? (metrics : List Record) (k : String × String) :
    ((buildSummary metrics).find? fun p => p.1 == k) =
      (if (metrics.filter fun m => keyOf m == k).isEmpty then none
       else some (k,
         ⟨(metrics.filter fun m => keyOf m == k).map fun r => r.runtime_s,
          (metrics.filter fun m => keyOf m == k).map fun r => r.cpu_percent,
          (metrics.filter fun m => keyOf m == k).map fun r => r.mem_percent⟩)) := by
  induction metrics using List.reverseRecOn with
  | nil => simp [buildSummary]
  | append_singleton ms m ih =>
      have hsum : buildSummary (ms ++ [m]) = addMetric (buildSummary ms) m := by
        simp [buildSummary, List.foldl_append]
      rw [hsum, find?_addMetric, ih]
      by_cases hk : keyOf m = k
      · rw [if_pos hk]
        have hbm : (keyOf m == k) = true := by simpa using hk
        by_cases he : (ms.filter fun m => keyOf m == k).isEmpty = true
        · rw [if_pos he]
          have hf : ((ms ++ [m]).filter fun m => keyOf m == k) = [m] := by
            rw [List.filter_append]
            simp [List.isEmpty_iff.mp he, hbm]
          rw [hf]
          simp [hk]
        · rw [if_neg he]
          have hf : ((ms ++ [m]).filter fun m => keyOf m == k) =
              (ms.filter fun m => keyOf m == k) ++ [m] := by
            rw [List.filter_append]
            simp [hbm]
          rw [hf]
          have hne : ((ms.filter fun m => keyOf m == k) ++ [m]).isEmpty = false := by
            simp
          rw [hne]
          simp
      · rw [if_neg hk]
        have hbm : (keyOf m == k) = false := by simpa using hk
        have hf : ((ms ++ [m]).filter fun m => keyOf m == k) =
            ms.filter fun m => keyOf m == k := by
          rw [List.filter_append]
          simp [hbm]
        rw [hf]

/-- `addMetric` preserves the invariant that every group has at least one
member in each of its three lists. -/
lemma addMetric_nonempty (summary : List ((String × String) × GroupData))
    (m : Record)
    (h : ∀ p ∈ summary, p.2.runtime ≠ [] ∧ p.2.cpu ≠ [] ∧ p.2.mem ≠ []) :
    ∀ p ∈ addMetric summary m,
      p.2.runtime ≠ [] ∧ p.2.cpu ≠ [] ∧ p.2.mem ≠ [] := by
  induction summary with
  | nil =>
      intro p hp
      simp only [addMetric, List.mem_singleton] at hp
      subst hp
      simp
  | cons hd rest ih =>
      obtain ⟨k0, g0⟩ := hd
      intro p hp
      simp only [addMetric] at hp
      by_cases h0 : k0 = keyOf m
      · rw [if_pos h0] at hp
        rcases List.mem_cons.mp hp with hp | hp
        · subst hp
          simp
        · exact h p (List.mem_cons_of_mem _ hp)
      · rw [if_neg h0] at hp
        rcases List.mem_cons.mp hp with hp | hp
        · subst hp
          exact h (k0, g0) (List.mem_cons_self _ _)
        · exact ih (fun q hq => h q (List.mem_cons_of_mem _ hq)) p hp

/-- Every group the report builds is nonempty: a key exists only because
some record created it. -/
lemma buildSummary_nonempty (metrics : List Record) :
    ∀ p ∈ buildSummary metrics,
      p.2.runtime ≠ [] ∧ p.2.cpu ≠ [] ∧ p.2.mem ≠ [] := by
  rw [buildSummary]
  have hgen : ∀ (acc : List ((String × String) × GroupData)),
      (∀ p ∈ acc, p.2.runtime ≠ [] ∧ p.2.cpu ≠ [] ∧ p.2.mem ≠ []) →
      ∀ p ∈ metrics.foldl addMetric acc,
        p.2.runtime ≠ [] ∧ p.2.cpu ≠ [] ∧ p.2.mem ≠ [] := by
    induction metrics with
    | nil => intro acc hacc; simpa using hacc
    | cons m ms ih =>
        intro acc hacc
        simp only [List.foldl_cons]
        exact ih (addMetric acc m) (addMetric_nonempty acc m hacc)
  exact hgen [] (by simp)

/-- When every entry yields a row, the row loop succeeds with one row per
entry. -/
lemma rowsOf_isSome_of_forall (l : List ((String × String) × GroupData))
    (h : ∀ a ∈ l, rowOf a ≠ none) :
    ∃ rows, rowsOf l = some rows ∧ rows.length = l.length := by
  induction l with
  | nil => exact ⟨[], rfl, rfl⟩
  | cons a l ih =>
      obtain ⟨r, hr⟩ := Option.ne_none_iff_exists'.mp (h a (List.mem_cons_self _ _))
      obtain ⟨rows, hrows, hlen⟩ := ih fun a ha => h a (List.mem_cons_of_mem _ ha)
      refine ⟨r :: rows, ?_, by simp [hlen]⟩
      simp [rowsOf, hr, hrows]

/-- C2 counterexample: a group whose only record comes from a *failed* run
(non-zero exit status 1) is still reported, with numeric means computed
from that failed run — not restricted to `success=true` members and not an
"undefined" mean for a group with zero successful members. -/
theorem c2_cex :
    reportRows
      [{ image := "img-a", workload := "wl.py", iteration := 1,
         runtime_s := 10, cpu_percent := 20, mem_percent := 30,
         mem_usage_bytes := 5, status := some 1, timestamp := 0 }] =
      some [{ image := "img-a", workload := "wl.py", avg_rt := 10,
              avg_cpu := 20, avg_mem := 30 }] := by
  simp [reportRows, rowsOf, buildSummary, addMetric, rowOf, mean, keyOf]

/-- C2 (amended): `generate_html_report` groups records by
`(image, workload)` and computes, for every group, the arithmetic mean of
runtime, CPU percent and memory percent over *all* records of the group,
with no filtering on success or exit status; a group key exists exactly
when at least one record carries it, so every group is nonempty, no
statistics/division error is ever raised (the report always renders), and a
key with zero records yields no row at all rather than an "undefined"
entry. -/
theorem c2_group_means (metrics : List Record) (k : String × String) :
    (∃ rows, reportRows metrics = some rows ∧
      rows.length = (buildSummary metrics).length) ∧
    ((buildSummary metrics).find? fun p => p.1 == k) =
      (if (metrics.filter fun m => keyOf m == k).isEmpty then none
       else some (k,
         ⟨(metrics.filter fun m => keyOf m == k).map fun r => r.runtime_s,
          (metrics.filter fun m => keyOf m == k).map fun r => r.cpu_percent,
          (metrics.filter fun m => keyOf m == k).map fun r => r.mem_percent⟩)) ∧
    ∀ p ∈ buildSummary metrics, rowOf p =
      some ⟨p.1.1, p.1.2,
        p.2.runtime.sum / (p.2.runtime.length : ℚ),
        p.2.cpu.sum / (p.2.cpu.length : ℚ),
        p.2.mem.sum / (p.2.mem.length : ℚ)⟩ := by
  refine ⟨?_, buildSummary_find? metrics k, ?_⟩
  · have h := buildSummary_nonempty metrics
    have hall : ∀ p ∈ buildSummary metrics, rowOf p ≠ none := by
      intro p hp
      obtain ⟨h1, h2, h3⟩ := h p hp
      simp [rowOf, mean, List.isEmpty_iff, h1, h2, h3]
    exact rowsOf_isSome_of_forall (buildSummary metrics) hall
  · intro p hp
    obtain ⟨h1, h2, h3⟩ := buildSummary_nonempty metrics p hp
    simp [rowOf, mean, List.isEmpty_iff, h1, h2, h3]

/-- Witness for C2 at a concrete single-record metrics list whose only
record has non-zero exit status. -/
theorem c2_group_means_witness :
    (∃ rows, reportRows
        [{ image := "img-a", workload := "wl.py", iteration := 1,
           runtime_s := 10, cpu_percent := 20, mem_percent := 30,
           mem_usage_bytes := 5, status := some 1, timestamp := 0 }] =
        some rows ∧
      rows.length = (buildSummary
        [{ image := "img-a", workload := "wl.py", iteration := 1,
           runtime_s := 10, cpu_percent := 20, mem_percent := 30,
           mem_usage_bytes := 5, status := some 1, timestamp := 0 }]).length) ∧
    rowOf (("img-a", "wl.py"), ⟨[10], [20], [30]⟩) =
      some ⟨"img-a", "wl.py", (10 : ℚ) / 1, (20 : ℚ) / 1, (30 : ℚ) / 1⟩ := by
  constructor
  · exact (c2_group_means
      [{ image := "img-a", workload := "wl.py", iteration := 1,
         runtime_s := 10, cpu_percent := 20, mem_percent := 30,
         mem_usage_bytes := 5, status := some 1, timestamp := 0 }]
      ("img-a", "wl.py")).1
  · have h := (c2_group_means
      [{ image := "img-a", workload := "wl.py", iteration := 1,
         runtime_s := 10, cpu_percent := 20, mem_percent := 30,
         mem_usage_bytes := 5, status := some 1, timestamp := 0 }]
      ("img-a", "wl.py")).2.2
      (("img-a", "wl.py"), ⟨[10], [20], [30]⟩) (by decide)
    simpa using h

end RunpodBench
